import Mathlib

/-!
Shallow embedding of the request/response pipeline of the asyncpraw client
(`asyncpraw/reddit.py` and `asyncpraw/models/reddit/mixins/replyable.py`):
parameter normalization, bad-request error translation, the rate-limit
backoff policy, the POST single-retry loop, the batched `info` generator and
the `reply` mixin.  Definitions are translated from the Python source;
theorems settle the specification claims about them.
-/

namespace Asyncpraw

/-! ## Rate-limit message parsing (`Reddit._ratelimit_regex`)

The source compiles the regular expression `([0-9]{1,2}) (seconds?|minutes?)`
and applies `.search` to the human-readable message.  We hand-compile this
fixed pattern: at each start position the quantifier `{1,2}` greedily tries
two digits and backtracks to one; the alternation tries `seconds?` before
`minutes?`, with a greedy optional trailing `s`. -/

def isDigitChar (c : Char) : Bool :=
  '0' ≤ c && c ≤ '9'

/-- Match the `(seconds?|minutes?)` group at the head of the character list,
returning the text captured by group 2. -/
def matchUnit : List Char → Option String
  | 's' :: 'e' :: 'c' :: 'o' :: 'n' :: 'd' :: rest =>
    match rest with
    | 's' :: _ => some "seconds"
    | _ => some "second"
  | 'm' :: 'i' :: 'n' :: 'u' :: 't' :: 'e' :: rest =>
    match rest with
    | 's' :: _ => some "minutes"
    | _ => some "minute"
  | _ => none

/-- Greedy two-digit attempt for `([0-9]{1,2}) ` followed by the unit. -/
def matchTwoDigit : List Char → Option (String × String)
  | c1 :: c2 :: ' ' :: rest =>
    if isDigitChar c1 && isDigitChar c2 then
      (matchUnit rest).map fun u => (String.mk [c1, c2], u)
    else
      none
  | _ => none

/-- Backtracked one-digit attempt for `([0-9]{1,2}) ` followed by the unit. -/
def matchOneDigit : List Char → Option (String × String)
  | c1 :: ' ' :: rest =>
    if isDigitChar c1 then
      (matchUnit rest).map fun u => (String.mk [c1], u)
    else
      none
  | _ => none

/-- Try the full pattern anchored at the current position. -/
def reMatchAt (s : List Char) : Option (String × String) :=
  match matchTwoDigit s with
  | some r => some r
  | none => matchOneDigit s

/-- Model of `re.search`: leftmost position at which the pattern matches,
returning the pair (group 1, group 2). -/
def reSearch : List Char → Option (String × String)
  | [] => none
  | c :: rest =>
    match reMatchAt (c :: rest) with
    | some r => some r
    | none => reSearch rest

/-- Python `int(...)` on the digit string captured by group 1. -/
def digitsToNat (l : List Char) : Nat :=
  l.foldl (fun acc c => acc * 10 + (c.toNat - '0'.toNat)) 0

/-- Scan for `needle` as a contiguous sublist of the haystack. -/
def listContains (needle : List Char) : List Char → Bool
  | [] => needle.isPrefixOf []
  | c :: rest => needle.isPrefixOf (c :: rest) || listContains needle rest

/-- Python `needle in hay` substring containment on strings. -/
def strContains (needle hay : String) : Bool :=
  listContains needle.data hay.data

/-! ## The structured API exception (`RedditAPIException.items`) -/

/-- One item of a structured API exception: `{error_type, message, field}`. -/
structure ExcItem where
  error_type : String
  message : String
  field : Option String
deriving Repr, DecidableEq

/-- A structured API exception carries an ordered list of items. -/
structure RedditAPIException where
  items : List ExcItem
deriving Repr, DecidableEq

/-! ## `Reddit._handle_rate_limit`

```python
for item in exception.items:
    if item.error_type == "RATELIMIT":
        amount_search = self._ratelimit_regex.search(item.message)
        if not amount_search:
            break
        seconds = int(amount_search.group(1))
        if "minute" in amount_search.group(2):
            seconds *= 60
        if seconds <= int(self.config.ratelimit_seconds):
            sleep_seconds = seconds + min(seconds / 10, 1)
            return sleep_seconds
return None
```

`config.ratelimit_seconds` passes through `int(...)`; we model the
configured threshold as a natural number.  Python's true division produces
an exact decimal here, modelled with rationals. -/

def handleRateLimitItems (threshold : Nat) : List ExcItem → Option ℚ
  | [] => none
  | item :: rest =>
    if item.error_type = "RATELIMIT" then
      match reSearch item.message.data with
      | none => none
      | some (g1, g2) =>
        let secs0 := digitsToNat g1.data
        let seconds := if strContains "minute" g2 then secs0 * 60 else secs0
        if seconds ≤ threshold then
          some ((seconds : ℚ) + min ((seconds : ℚ) / 10) 1)
        else
          handleRateLimitItems threshold rest
    else
      handleRateLimitItems threshold rest

def handle_rate_limit (threshold : Nat) (exception : RedditAPIException) :
    Option ℚ :=
  handleRateLimitItems threshold exception.items

/-! ## Parameter normalization in `Reddit.request`

```python
if params:
    new_params = {}
    for k, v in params.items():
        if isinstance(v, bool):
            new_params[k] = str(v).lower()
        elif v:
            new_params[k] = v
    params = new_params
```

Parameter values are Python values with truthiness; we model the cases the
client actually sends (booleans, strings, integers, string lists, None). -/

inductive PVal where
  | pybool (b : Bool)
  | pystr (s : String)
  | pyint (i : Int)
  | pylist (l : List String)
  | pynone
deriving Repr, DecidableEq

/-- Python truthiness of a parameter value. -/
def PVal.truthy : PVal → Bool
  | .pybool b => b
  | .pystr s => !s.isEmpty
  | .pyint i => decide (i ≠ 0)
  | .pylist l => !l.isEmpty
  | .pynone => false

/-- Python `isinstance(v, bool)`. -/
def PVal.isPyBool : PVal → Bool
  | .pybool _ => true
  | _ => false

/-- Python `str(v).lower()` for a boolean `v`. -/
def pyBoolStr (b : Bool) : String :=
  if b then "true" else "false"

/-- The loop body of the normalization: booleans become lowercase strings,
truthy values pass through, falsy non-boolean values are dropped. -/
def normalizeParams : List (String × PVal) → List (String × PVal)
  | [] => []
  | (k, v) :: rest =>
    if v.isPyBool then
      (k, .pystr (pyBoolStr (match v with | .pybool b => b | _ => false))) ::
        normalizeParams rest
    else if v.truthy then
      (k, v) :: normalizeParams rest
    else
      normalizeParams rest

/-- The `if params:` guard: `params` is rebound to the normalized dict only
when it is truthy (non-None and non-empty). -/
def transmittedParams (params : Option (List (String × PVal))) :
    Option (List (String × PVal)) :=
  match params with
  | none => none
  | some ps => if !ps.isEmpty then some (normalizeParams ps) else some ps

/-! ## Bad-request translation in `Reddit.request`

The error body parsed from the HTTP response is a JSON object; we model the
value shapes that the handler inspects. -/

inductive EVal where
  | str (s : String)
  | strList (l : List String)
  | num (n : Int)
  | null
deriving Repr, DecidableEq

/-- The parsed JSON error body: an ordered mapping from keys to values. -/
abbrev ErrBody : Type := List (String × EVal)

/-- Python `data[k]` lookup (first binding of the key). -/
def lookupKey (b : ErrBody) (k : String) : Option EVal :=
  (b.find? fun p => p.1 = k).map (·.2)

/-- Python `set(data) == \x7b"error", "message"\x7d`. -/
def keySetIsErrorMessage (b : ErrBody) : Bool :=
  (b.all fun p => p.1 = "error" || p.1 = "message") &&
    (b.any fun p => p.1 = "error") && (b.any fun p => p.1 = "message")

/-- Outcome of one `Reddit.request` invocation. -/
inductive ReqResult (α : Type) where
  | ok (v : α)
  | clientException (msg : String)
  | unexpectedError
  | badRequestReraised
  | apiException (reason explanation : EVal) (field : Option String)
  | keyError
  | assertionError
deriving Repr, DecidableEq

/-- The `raise RedditAPIException([data["reason"], data["explanation"],
field])` tail: looking up a missing key raises `KeyError`. -/
def mkApiException {α : Type} (data : ErrBody) (field : Option String) :
    ReqResult α :=
  match lookupKey data "reason", lookupKey data "explanation" with
  | some r, some e => .apiException r e field
  | _, _ => .keyError

/-- The `except BadRequest` handler of `Reddit.request`.  `body` is `none`
when `exception.response.json()` raised `ValueError` (no JSON body). -/
def handleBadRequest {α : Type} (body : Option ErrBody) : ReqResult α :=
  match body with
  | none => .unexpectedError
  | some data =>
    if keySetIsErrorMessage data then
      .badRequestReraised
    else
      match lookupKey data "fields" with
      | some (.strList fl) =>
        match fl with
        | [f] => mkApiException data (some f)
        | _ => .assertionError
      | some _ => .assertionError
      | none => mkApiException data none

/-! ## `Reddit.request` -/

/-- A call handed to the transport collaborator (`self._core.request`). -/
structure CoreCall where
  method : String
  path : String
  params : Option (List (String × PVal))
  data : Option (List (String × String))
  files : Option (List String)
  json : Option (List (String × String))
deriving Repr, DecidableEq

/-- Result of the transport call: either a parsed response or a `BadRequest`
transport error carrying an optional parsed JSON body. -/
inductive CoreResult (α : Type) where
  | ok (v : α)
  | badRequest (body : Option ErrBody)
deriving Repr, DecidableEq

/-- Python truthiness of the optional `data` / `json` dict arguments. -/
def optDictTruthy (d : Option (List (String × String))) : Bool :=
  match d with
  | none => false
  | some l => !l.isEmpty

/-- Shallow embedding of `Reddit.request`: normalize parameters, reject
`data`+`json` together before any network call, then issue one transport
call and translate a `BadRequest` failure.  Returns the list of transport
calls issued next to the outcome. -/
def request {α : Type} (method path : String)
    (params : Option (List (String × PVal)))
    (data : Option (List (String × String))) (files : Option (List String))
    (json : Option (List (String × String)))
    (core : CoreCall → CoreResult α) : List CoreCall × ReqResult α :=
  if optDictTruthy data && optDictTruthy json then
    ([], .clientException "At most one of `data` and `json` is supported.")
  else
    match core ⟨method, path, transmittedParams params, data, files, json⟩ with
    | .ok v =>
      ([⟨method, path, transmittedParams params, data, files, json⟩], .ok v)
    | .badRequest body =>
      ([⟨method, path, transmittedParams params, data, files, json⟩],
        handleBadRequest body)

/-! ## `Reddit.post` and the other dispatch methods

Each dispatch method forwards to `_objectify_request`; `post` additionally
catches a `RedditAPIException`, consults the backoff policy, and retries at
most once.  We record the `_objectify_request` calls issued and let
`respond n` stand for the outcome of the `n`-th attempt. -/

/-- Arguments of one `_objectify_request` call. -/
structure ObjRequest where
  data : Option (List (String × String))
  files : Option (List String)
  json : Option (List (String × String))
  method : String
  params : Option (List (String × PVal))
  path : String
deriving Repr, DecidableEq

/-- Python `data or \x7b\x7d`. -/
def pyOrEmptyDict (data : Option (List (String × String))) :
    List (String × String) :=
  match data with
  | none => []
  | some d => if d.isEmpty then [] else d

/-- Shallow embedding of `Reddit.post`.  `threshold` is the configured
`ratelimit_seconds`. -/
def post {α : Type} (threshold : Nat) (path : String)
    (data : Option (List (String × String))) (files : Option (List String))
    (params : Option (List (String × PVal)))
    (json : Option (List (String × String)))
    (respond : Nat → Except RedditAPIException α) :
    List ObjRequest × Except RedditAPIException α :=
  let data := if json = none then some (pyOrEmptyDict data) else data
  let req1 : ObjRequest := ⟨data, files, json, "POST", params, path⟩
  match respond 0 with
  | .ok v => ([req1], .ok v)
  | .error exception =>
    match handle_rate_limit threshold exception with
    | some _ => ([req1, ⟨data, files, none, "POST", params, path⟩], respond 1)
    | none => ([req1], .error exception)

/-- Shallow embedding of `Reddit.get`: a single `_objectify_request` call,
no exception handling. -/
def get {α : Type} (path : String) (params : Option (List (String × PVal)))
    (respond : Nat → Except RedditAPIException α) :
    List ObjRequest × Except RedditAPIException α :=
  ([⟨none, none, none, "GET", params, path⟩], respond 0)

/-- Shallow embedding of `Reddit.put`. -/
def put {α : Type} (path : String)
    (data : Option (List (String × String)))
    (json : Option (List (String × String)))
    (respond : Nat → Except RedditAPIException α) :
    List ObjRequest × Except RedditAPIException α :=
  ([⟨data, none, json, "PUT", none, path⟩], respond 0)

/-- Shallow embedding of `Reddit.patch`. -/
def patch {α : Type} (path : String)
    (data : Option (List (String × String)))
    (json : Option (List (String × String)))
    (respond : Nat → Except RedditAPIException α) :
    List ObjRequest × Except RedditAPIException α :=
  ([⟨data, none, json, "PATCH", none, path⟩], respond 0)

/-- Shallow embedding of `Reddit.delete`. -/
def delete {α : Type} (path : String)
    (data : Option (List (String × String)))
    (json : Option (List (String × String)))
    (respond : Nat → Except RedditAPIException α) :
    List ObjRequest × Except RedditAPIException α :=
  ([⟨data, none, json, "DELETE", none, path⟩], respond 0)

/-! ## `Reddit.info`

```python
async def generator(fullnames):
    iterable = iter(fullnames)
    while True:
        chunk = list(islice(iterable, 100))
        if not chunk:
            break
        params = {"id": ",".join(chunk)}
        for result in await self.get(API_PATH["info"], params=params):
            yield result
```

`resp chunk` stands for the objectified result list of the one `get` call
issued for that chunk. -/

def infoGen {α : Type} (resp : List String → List α) (l : List String) :
    List (List String) × List α :=
  if l.isEmpty then ([], [])
  else
    let chunk := l.take 100
    let r := infoGen resp (l.drop 100)
    (chunk :: r.1, resp chunk ++ r.2)
termination_by l.length
decreasing_by
  simp only [List.length_drop]
  cases l with
  | nil => simp_all
  | cons a as => simp; omega

/-- The `fullnames` argument: either a plain string or an iterable of
strings. -/
inductive FullnamesArg where
  | ofStr (s : String)
  | ofList (l : List String)
deriving Repr, DecidableEq

/-- What `Reddit.info` returns on success: either the batched-fullname plan
(one request per chunk with its yields) or the single URL request. -/
inductive InfoPlan (α : Type) where
  | fullnamesPlan (requests : List (List String)) (yields : List α)
  | urlPlan (url : String) (yields : List α)
deriving Repr, DecidableEq

/-- Shallow embedding of `Reddit.info`: argument validation happens before
any generator is constructed, hence before any request is issued. -/
def info {α : Type} (resp : List String → List α) (urlResp : String → List α)
    (fullnames : Option FullnamesArg) (url : Option String) :
    Except String (InfoPlan α) :=
  let noneCount := (if fullnames = none then 1 else 0) +
    (if url = none then 1 else 0)
  if noneCount > 1 then
    .error "Either `fullnames` or `url` must be provided."
  else if noneCount < 1 then
    .error "Mutually exclusive parameters: `fullnames`, `url`"
  else
    match fullnames with
    | some (.ofStr _) => .error "`fullnames` must be a non-str iterable."
    | some (.ofList l) =>
      .ok (.fullnamesPlan (infoGen resp l).1 (infoGen resp l).2)
    | none =>
      match url with
      | some u => .ok (.urlPlan u (urlResp u))
      | none => .error "Either `fullnames` or `url` must be provided."

/-! ## `ReplyableMixin.reply`

```python
data = {"text": body, "thing_id": self.fullname}
comments = await self._reddit.post(API_PATH["comment"], data=data)
try:
    return comments[0]
except IndexError:
    return None
```
-/

/-- Shallow embedding of `ReplyableMixin.reply`: `postResp` maps the posted
form data to the comment list the POST returned.  Returns the posted data
and the optional created comment. -/
def reply {γ : Type} (fullname body : String)
    (postResp : List (String × String) → List γ) :
    List (String × String) × Option γ :=
  let data := [("text", body), ("thing_id", fullname)]
  let comments := postResp data
  (data,
    match comments with
    | [] => none
    | c :: _ => some c)

/-! ## Lemmas about the backoff policy -/

theorem handleRateLimitItems_of_no_ratelimit (t : Nat) (l : List ExcItem)
    (h : ∀ i ∈ l, i.error_type ≠ "RATELIMIT") :
    handleRateLimitItems t l = none := by
  induction l with
  | nil => rfl
  | cons a rest ih =>
    have ha := h a (List.mem_cons_self a rest)
    simp only [handleRateLimitItems, if_neg ha]
    exact ih fun i hi => h i (List.mem_cons_of_mem a hi)

theorem handleRateLimitItems_split (t : Nat) (pre post : List ExcItem)
    (item : ExcItem) (g1 g2 : String)
    (hpre : ∀ i ∈ pre, i.error_type ≠ "RATELIMIT")
    (hpost : ∀ i ∈ post, i.error_type ≠ "RATELIMIT")
    (hrl : item.error_type = "RATELIMIT")
    (hsearch : reSearch item.message.data = some (g1, g2)) :
    handleRateLimitItems t (pre ++ item :: post) =
      (if (if strContains "minute" g2 then digitsToNat g1.data * 60
           else digitsToNat g1.data) ≤ t then
        some ((((if strContains "minute" g2 then digitsToNat g1.data * 60
                 else digitsToNat g1.data : ℕ)) : ℚ) +
          min ((((if strContains "minute" g2 then digitsToNat g1.data * 60
                  else digitsToNat g1.data : ℕ)) : ℚ) / 10) 1)
      else none) := by
  induction pre with
  | nil =>
    simp only [List.nil_append, handleRateLimitItems, if_pos hrl, hsearch]
    split <;> split
    · rfl
    · exact handleRateLimitItems_of_no_ratelimit t post hpost
    · rfl
    · exact handleRateLimitItems_of_no_ratelimit t post hpost
  | cons a rest ih =>
    have ha := hpre a (List.mem_cons_self a rest)
    simp only [List.cons_append, handleRateLimitItems, if_neg ha]
    exact ih fun i hi => hpre i (List.mem_cons_of_mem a hi)

theorem handle_rate_limit_seven_seconds (t : ℕ) :
    handle_rate_limit t
        ⟨[⟨"RATELIMIT", "Try again in 7 seconds.", none⟩]⟩ =
      if 7 ≤ t then some (77 / 10) else none := by
  show handleRateLimitItems t _ = _
  have h := handleRateLimitItems_split t [] []
    ⟨"RATELIMIT", "Try again in 7 seconds.", none⟩ "7" "seconds"
    (by simp) (by simp) rfl (by decide)
  have hm : strContains "minute" "seconds" = false := by decide
  have hd : digitsToNat "7".data = 7 := by decide
  rw [hm, hd] at h
  simp only [List.nil_append, Bool.false_eq_true, if_false] at h
  rw [h]
  rcases le_or_lt 7 t with hle | hlt
  · rw [if_pos hle, if_pos hle]
    norm_num [min_def]
  · rw [if_neg (by omega), if_neg (by omega)]

/-! ## Lemmas about parameter normalization and `request` -/

/-- One step of the normalization loop, as a `filterMap` step. -/
def normStep : String × PVal → Option (String × PVal)
  | (k, .pybool b) => some (k, .pystr (pyBoolStr b))
  | (k, v) => if v.truthy then some (k, v) else none

theorem normalizeParams_eq_filterMap (ps : List (String × PVal)) :
    normalizeParams ps = ps.filterMap normStep := by
  induction ps with
  | nil => rfl
  | cons p rest ih =>
    rcases p with ⟨k, v⟩
    cases v <;>
      simp [normalizeParams, normStep, List.filterMap_cons, PVal.isPyBool,
        ih] <;> split <;> simp_all

theorem mem_normalizeParams_truthy (ps : List (String × PVal))
    (k : String) (v : PVal) (h : (k, v) ∈ normalizeParams ps) :
    v.truthy = true := by
  rw [normalizeParams_eq_filterMap] at h
  rcases List.mem_filterMap.mp h with ⟨⟨k', v'⟩, _, hstep⟩
  cases v' <;> simp only [normStep] at hstep
  · rename_i b hmem
    cases hstep
    cases b <;> decide
  all_goals
    split at hstep
    · cases hstep; assumption
    · cases hstep

theorem request_calls_params {α : Type} (method path : String)
    (ps : List (String × PVal)) (data : Option (List (String × String)))
    (files : Option (List String)) (json : Option (List (String × String)))
    (core : CoreCall → CoreResult α) (hps : ps ≠ []) (call : CoreCall)
    (hc : call ∈ (request method path (some ps) data files json core).1) :
    call.params = some (normalizeParams ps) := by
  unfold request at hc
  split at hc
  · simp at hc
  · have hps' : ps.isEmpty = false := by
      cases ps
      · exact absurd rfl hps
      · rfl
    split at hc <;> simp at hc <;> subst hc <;>
      simp [transmittedParams, hps']

/-! ## Lemmas about the batched `info` generator -/

theorem infoGen_nil {α : Type} (resp : List String → List α) :
    infoGen resp [] = ([], []) := by
  unfold infoGen
  rfl

theorem infoGen_cons {α : Type} (resp : List String → List α)
    (l : List String) (h : l ≠ []) :
    infoGen resp l =
      ((l.take 100) :: (infoGen resp (l.drop 100)).1,
        resp (l.take 100) ++ (infoGen resp (l.drop 100)).2) := by
  conv_lhs => rw [infoGen]
  have he : l.isEmpty = false := by
    cases l
    · exact absurd rfl h
    · rfl
  simp [he]

/-- Induction along the chunking recursion of `infoGen`. -/
theorem chunk_induction (P : List String → Prop) (h0 : P [])
    (hstep : ∀ l, l ≠ [] → P (l.drop 100) → P l) : ∀ l, P l := by
  have H : ∀ (n : ℕ) (l : List String), l.length ≤ n → P l := by
    intro n
    induction n with
    | zero =>
      intro l hl
      obtain rfl : l = [] := List.eq_nil_of_length_eq_zero (Nat.le_zero.mp hl)
      exact h0
    | succ n ih =>
      intro l hl
      by_cases h : l = []
      · rw [h]; exact h0
      · refine hstep l h (ih (l.drop 100) ?_)
        have h1 : 1 ≤ l.length := by
          cases l
          · exact absurd rfl h
          · simp
        rw [List.length_drop]
        omega
  exact fun l => H l.length l le_rfl

theorem infoGen_join {α : Type} (resp : List String → List α)
    (l : List String) : ((infoGen resp l).1).flatten = l := by
  induction l using chunk_induction with
  | h0 => rw [infoGen_nil]; rfl
  | hstep l h ih =>
    rw [infoGen_cons resp l h]
    show l.take 100 ++ ((infoGen resp (l.drop 100)).1).flatten = l
    rw [ih, List.take_append_drop]

theorem infoGen_chunk_bounds {α : Type} (resp : List String → List α)
    (l : List String) : ∀ c ∈ (infoGen resp l).1, c ≠ [] ∧ c.length ≤ 100 := by
  induction l using chunk_induction with
  | h0 => rw [infoGen_nil]; intro c hc; cases hc
  | hstep l h ih =>
    rw [infoGen_cons resp l h]
    intro c hc
    rcases List.mem_cons.mp hc with h1 | h2
    · subst h1
      have h1 : 1 ≤ l.length := by
        cases l
        · exact absurd rfl h
        · simp
      constructor
      · rw [← List.length_pos, List.length_take]
        omega
      · rw [List.length_take]
        omega
    · exact ih c h2

theorem infoGen_chunks_full {α : Type} (resp : List String → List α)
    (l : List String) :
    ∀ c ∈ ((infoGen resp l).1).dropLast, c.length = 100 := by
  induction l using chunk_induction with
  | h0 => rw [infoGen_nil]; intro c hc; cases hc
  | hstep l h ih =>
    by_cases hd : l.drop 100 = []
    · rw [infoGen_cons resp l h, hd, infoGen_nil]
      intro c hc
      cases hc
    · have hlen : 100 < l.length := by
        have hne : (l.drop 100).length ≠ 0 := fun h0 =>
          hd (List.eq_nil_of_length_eq_zero h0)
        rw [List.length_drop] at hne
        omega
      rw [infoGen_cons resp l h, infoGen_cons resp (l.drop 100) hd]
      intro c hc
      rw [List.dropLast_cons₂] at hc
      rcases List.mem_cons.mp hc with h1 | h2
      · subst h1
        rw [List.length_take]
        omega
      · apply ih
        rw [infoGen_cons resp (l.drop 100) hd]
        exact h2

theorem infoGen_yields {α : Type} (resp : List String → List α)
    (l : List String) :
    (infoGen resp l).2 = (((infoGen resp l).1).map resp).flatten := by
  induction l using chunk_induction with
  | h0 => rw [infoGen_nil]; rfl
  | hstep l h ih =>
    rw [infoGen_cons resp l h]
    show resp (l.take 100) ++ (infoGen resp (l.drop 100)).2 =
      resp (l.take 100) ++ (((infoGen resp (l.drop 100)).1).map resp).flatten
    rw [ih]

theorem infoGen_250 {α : Type} (resp : List String → List α)
    (l : List String) (h : l.length = 250) :
    ((infoGen resp l).1).map List.length = [100, 100, 50] := by
  have h1 : l ≠ [] := by
    intro e
    rw [e] at h
    cases h
  have hd1 : (l.drop 100).length = 150 := by rw [List.length_drop, h]
  have h2 : l.drop 100 ≠ [] := by
    intro e
    rw [e] at hd1
    cases hd1
  have hd2 : ((l.drop 100).drop 100).length = 50 := by
    rw [List.length_drop, hd1]
  have h3 : (l.drop 100).drop 100 ≠ [] := by
    intro e
    rw [e] at hd2
    cases hd2
  have hd3 : (((l.drop 100).drop 100).drop 100).length = 0 := by
    rw [List.length_drop, hd2]
  have h4 : ((l.drop 100).drop 100).drop 100 = [] :=
    List.eq_nil_of_length_eq_zero hd3
  rw [infoGen_cons resp l h1, infoGen_cons resp (l.drop 100) h2,
    infoGen_cons resp ((l.drop 100).drop 100) h3, h4, infoGen_nil]
  simp only [List.map_cons, List.map_nil, List.length_take, h, hd1, hd2]
  rfl

end Asyncpraw

namespace AsyncprawClaims

open Asyncpraw

/-- C1: for a structured API exception whose items contain a single
rate-limit item with a parseable "N second(s)"/"N minute(s)" message, the
backoff computation converts minutes to seconds (×60) and returns
`delay + min(delay/10, 1)` iff the delay is at most the configured
threshold, and otherwise returns no value; in particular "7 seconds" with
threshold ≥ 7 gives 7.7, and "5 minutes" with threshold < 300 gives no
value. -/
theorem C1_rate_limit_backoff :
    (∀ (t : ℕ) (pre post : List ExcItem) (item : ExcItem) (g1 g2 : String),
      (∀ i ∈ pre, i.error_type ≠ "RATELIMIT") →
      (∀ i ∈ post, i.error_type ≠ "RATELIMIT") →
      item.error_type = "RATELIMIT" →
      reSearch item.message.data = some (g1, g2) →
      handle_rate_limit t ⟨pre ++ item :: post⟩ =
        (if (if strContains "minute" g2 then digitsToNat g1.data * 60
             else digitsToNat g1.data) ≤ t then
          some ((((if strContains "minute" g2 then digitsToNat g1.data * 60
                   else digitsToNat g1.data : ℕ)) : ℚ) +
            min ((((if strContains "minute" g2 then digitsToNat g1.data * 60
                    else digitsToNat g1.data : ℕ)) : ℚ) / 10) 1)
        else none)) ∧
    (∀ t : ℕ, 7 ≤ t →
      handle_rate_limit t
        ⟨[⟨"RATELIMIT", "Try again in 7 seconds.", some "ratelimit"⟩]⟩ =
        some (77 / 10)) ∧
    (∀ t : ℕ, t < 300 →
      handle_rate_limit t
        ⟨[⟨"RATELIMIT", "Take a break for 5 minutes.", some "ratelimit"⟩]⟩ =
        none) := by
  refine ⟨?_, ?_, ?_⟩
  · intro t pre post item g1 g2 hpre hpost hrl hsearch
    exact handleRateLimitItems_split t pre post item g1 g2 hpre hpost hrl
      hsearch
  · intro t ht
    show handleRateLimitItems t _ = _
    have h := handleRateLimitItems_split t [] []
      ⟨"RATELIMIT", "Try again in 7 seconds.", some "ratelimit"⟩ "7" "seconds"
      (by simp) (by simp) rfl (by decide)
    have hm : strContains "minute" "seconds" = false := by decide
    have hd : digitsToNat "7".data = 7 := by decide
    rw [hm, hd] at h
    simp only [List.nil_append, Bool.false_eq_true, if_false] at h
    rw [h, if_pos ht]
    norm_num [min_def]
  · intro t ht
    show handleRateLimitItems t _ = _
    have h := handleRateLimitItems_split t [] []
      ⟨"RATELIMIT", "Take a break for 5 minutes.", some "ratelimit"⟩ "5"
      "minutes" (by simp) (by simp) rfl (by decide)
    have hm : strContains "minute" "minutes" = true := by decide
    have hd : digitsToNat "5".data = 5 := by decide
    rw [hm, hd] at h
    simp only [List.nil_append, if_true] at h
    rw [h, if_neg (by omega)]

/-- C5: every boolean-valued parameter entry is transmitted with its value
converted to the lowercase string "true"/"false": the converted entry is in
the normalized set, and every transport call issued by `request` carries
exactly the normalized parameter set. -/
theorem C5_bool_params_lowercase :
    (∀ (ps : List (String × PVal)) (k : String) (b : Bool),
      (k, PVal.pybool b) ∈ ps →
      (k, PVal.pystr (if b then "true" else "false")) ∈ normalizeParams ps) ∧
    (∀ (α : Type) (method path : String) (ps : List (String × PVal))
      (data : Option (List (String × String)))
      (files : Option (List String)) (json : Option (List (String × String)))
      (core : CoreCall → CoreResult α) (call : CoreCall) (k : String)
      (b : Bool), (k, PVal.pybool b) ∈ ps →
      call ∈ (request method path (some ps) data files json core).1 →
      call.params = some (normalizeParams ps)) := by
  constructor
  · intro ps k b hmem
    rw [normalizeParams_eq_filterMap]
    exact List.mem_filterMap.mpr ⟨(k, .pybool b), hmem, rfl⟩
  · intro α method path ps data files json core call k b hmem hc
    exact request_calls_params method path ps data files json core
      (List.ne_nil_of_mem hmem) call hc

/-- Closed witness for C5: a true boolean parameter is sent as the string
"true" and the issued transport call carries the normalized set. -/
theorem C5_bool_params_lowercase_witness :
    ("over_18", PVal.pystr "true") ∈
      normalizeParams [("over_18", PVal.pybool true)] ∧
    CoreCall.params
        ⟨"GET", "/r/all", some [("over_18", PVal.pystr "true")], none, none,
          none⟩ =
      some (normalizeParams [("over_18", PVal.pybool true)]) :=
  ⟨C5_bool_params_lowercase.1 [("over_18", PVal.pybool true)] "over_18" true
      (by simp),
   C5_bool_params_lowercase.2 ℕ "GET" "/r/all"
      [("over_18", PVal.pybool true)] none none none
      (fun _ => CoreResult.ok 0) _ "over_18" true (by simp) (by decide)⟩

/-- C6: falsy non-boolean parameter entries are omitted from the transmitted
parameter set, truthy non-boolean entries are transmitted unchanged, and
every transport call issued by `request` carries exactly the normalized
parameter set. -/
theorem C6_falsy_params_omitted :
    (∀ (ps : List (String × PVal)) (k : String) (v : PVal),
      v.isPyBool = false → v.truthy = false → (k, v) ∉ normalizeParams ps) ∧
    (∀ (ps : List (String × PVal)) (k : String) (v : PVal),
      v.isPyBool = false → v.truthy = true → (k, v) ∈ ps →
      (k, v) ∈ normalizeParams ps) ∧
    (∀ (α : Type) (method path : String) (ps : List (String × PVal))
      (data : Option (List (String × String)))
      (files : Option (List String)) (json : Option (List (String × String)))
      (core : CoreCall → CoreResult α) (call : CoreCall), ps ≠ [] →
      call ∈ (request method path (some ps) data files json core).1 →
      call.params = some (normalizeParams ps)) := by
  refine ⟨?_, ?_, ?_⟩
  · intro ps k v _ hfalsy hmem
    have := mem_normalizeParams_truthy ps k v hmem
    simp [hfalsy] at this
  · intro ps k v hnb htruthy hmem
    rw [normalizeParams_eq_filterMap]
    refine List.mem_filterMap.mpr ⟨(k, v), hmem, ?_⟩
    cases v <;> simp_all [normStep, PVal.isPyBool]
  · intro α method path ps data files json core call hps hc
    exact request_calls_params method path ps data files json core hps call hc

/-- Closed witness for C6: an empty-string parameter is dropped while a
non-empty string survives, on the set sent by a concrete `request` call. -/
theorem C6_falsy_params_omitted_witness :
    ("q", PVal.pystr "") ∉
      normalizeParams [("q", PVal.pystr ""), ("t", PVal.pystr "day")] ∧
    ("t", PVal.pystr "day") ∈
      normalizeParams [("q", PVal.pystr ""), ("t", PVal.pystr "day")] ∧
    CoreCall.params
        ⟨"GET", "/search", some [("t", PVal.pystr "day")], none, none,
          none⟩ =
      some (normalizeParams [("q", PVal.pystr ""), ("t", PVal.pystr "day")]) :=
  ⟨C6_falsy_params_omitted.1 [("q", PVal.pystr ""), ("t", PVal.pystr "day")]
      "q" (PVal.pystr "") rfl rfl,
   C6_falsy_params_omitted.2.1
      [("q", PVal.pystr ""), ("t", PVal.pystr "day")] "t" (PVal.pystr "day")
      rfl rfl (by simp),
   C6_falsy_params_omitted.2.2 ℕ "GET" "/search"
      [("q", PVal.pystr ""), ("t", PVal.pystr "day")] none none none
      (fun _ => CoreResult.ok 0) _ (by simp) (by decide)⟩

/-- C7: supplying both a truthy form body and a truthy JSON body makes
`request` raise the usage error with no transport call issued. -/
theorem C7_data_json_mutually_exclusive (α : Type) (method path : String)
    (params : Option (List (String × PVal)))
    (data : Option (List (String × String))) (files : Option (List String))
    (json : Option (List (String × String))) (core : CoreCall → CoreResult α)
    (hd : optDictTruthy data = true) (hj : optDictTruthy json = true) :
    request method path params data files json core =
      ([], .clientException
        "At most one of `data` and `json` is supported.") := by
  unfold request
  rw [if_pos (by rw [hd, hj]; rfl)]

/-- Closed witness for C7: a concrete call with both bodies yields the usage
error and an empty transport-call trace. -/
theorem C7_data_json_mutually_exclusive_witness :
    request "POST" "/api/submit" none (some [("title", "t")]) none
        (some [("body", "b")]) (fun _ => CoreResult.ok (0 : ℕ)) =
      ([], .clientException
        "At most one of `data` and `json` is supported.") :=
  C7_data_json_mutually_exclusive ℕ "POST" "/api/submit" none
    (some [("title", "t")]) none (some [("body", "b")])
    (fun _ => CoreResult.ok 0) rfl rfl

/-- C4: a malformed-request transport error with an unparseable body is a
fatal unexpected condition; a body whose key set is exactly
error/message re-raises the original error; otherwise the body's reason,
explanation and optional single field are wrapped into a structured API
exception — and `request` routes every `BadRequest` through this handler. -/
theorem C4_bad_request_translation :
    (∀ α : Type, handleBadRequest (α := α) none = .unexpectedError) ∧
    (∀ (α : Type) (data : ErrBody), keySetIsErrorMessage data = true →
      handleBadRequest (α := α) (some data) = .badRequestReraised) ∧
    (∀ (α : Type) (data : ErrBody) (r e : EVal),
      keySetIsErrorMessage data = false →
      lookupKey data "fields" = none →
      lookupKey data "reason" = some r →
      lookupKey data "explanation" = some e →
      handleBadRequest (α := α) (some data) = .apiException r e none) ∧
    (∀ (α : Type) (data : ErrBody) (r e : EVal) (f : String),
      keySetIsErrorMessage data = false →
      lookupKey data "fields" = some (.strList [f]) →
      lookupKey data "reason" = some r →
      lookupKey data "explanation" = some e →
      handleBadRequest (α := α) (some data) = .apiException r e (some f)) ∧
    (∀ (α : Type) (method path : String)
      (params : Option (List (String × PVal)))
      (data : Option (List (String × String)))
      (files : Option (List String)) (json : Option (List (String × String)))
      (core : CoreCall → CoreResult α) (body : Option ErrBody),
      (optDictTruthy data && optDictTruthy json) = false →
      core ⟨method, path, transmittedParams params, data, files, json⟩ =
        .badRequest body →
      request method path params data files json core =
        ([⟨method, path, transmittedParams params, data, files, json⟩],
          handleBadRequest body)) := by
  refine ⟨fun α => rfl, ?_, ?_, ?_, ?_⟩
  · intro α data hks
    simp only [handleBadRequest, if_pos hks]
  · intro α data r e hks hfields hr he
    simp only [handleBadRequest, mkApiException, hks, Bool.false_eq_true,
      if_false, hfields, hr, he]
  · intro α data r e f hks hfields hr he
    simp only [handleBadRequest, mkApiException, hks, Bool.false_eq_true,
      if_false, hfields, hr, he]
  · intro α method path params data files json core body hdj hcore
    simp only [request, hdj, Bool.false_eq_true, if_false, hcore]

/-- Closed witness for C4: a generic error/message body is re-raised, a
reason/explanation/fields body becomes a structured API exception, and a
concrete `request` call returns the translated outcome. -/
theorem C4_bad_request_translation_witness :
    handleBadRequest (α := ℕ)
        (some [("error", .num 400), ("message", .str "Bad Request")]) =
      .badRequestReraised ∧
    handleBadRequest (α := ℕ)
        (some [("reason", .str "INVALID_OPTION"),
          ("explanation", .str "that option is not valid"),
          ("fields", .strList ["choice"])]) =
      .apiException (.str "INVALID_OPTION")
        (.str "that option is not valid") (some "choice") ∧
    request "POST" "/api/submit" none none none none
        (fun _ => CoreResult.badRequest (α := ℕ) none) =
      ([⟨"POST", "/api/submit", none, none, none, none⟩],
        handleBadRequest none) :=
  ⟨C4_bad_request_translation.2.1 ℕ
      [("error", .num 400), ("message", .str "Bad Request")] rfl,
   C4_bad_request_translation.2.2.2.1 ℕ
      [("reason", .str "INVALID_OPTION"),
        ("explanation", .str "that option is not valid"),
        ("fields", .strList ["choice"])]
      (.str "INVALID_OPTION") (.str "that option is not valid") "choice"
      rfl rfl rfl rfl,
   C4_bad_request_translation.2.2.2.2 ℕ "POST" "/api/submit" none none none
      none (fun _ => CoreResult.badRequest none) none rfl rfl⟩

/-- C2: a POST whose first attempt raises an API exception the backoff
policy authorizes is retried exactly once, the retry's outcome (success or
a second exception) is propagated with no further attempt; when the policy
declines, the original exception propagates with no retry; a successful
first attempt makes exactly one call; and get/put/patch/delete always make
exactly one call whatever the outcome. -/
theorem C2_post_single_retry :
    (∀ (α : Type) (t : ℕ) (path : String)
      (data : Option (List (String × String))) (files : Option (List String))
      (params : Option (List (String × PVal)))
      (json : Option (List (String × String)))
      (respond : ℕ → Except RedditAPIException α) (v : α),
      respond 0 = .ok v →
      (post t path data files params json respond).1.length = 1 ∧
      (post t path data files params json respond).2 = .ok v) ∧
    (∀ (α : Type) (t : ℕ) (path : String)
      (data : Option (List (String × String))) (files : Option (List String))
      (params : Option (List (String × PVal)))
      (json : Option (List (String × String)))
      (respond : ℕ → Except RedditAPIException α) (e : RedditAPIException)
      (s : ℚ), respond 0 = .error e → handle_rate_limit t e = some s →
      (post t path data files params json respond).1.length = 2 ∧
      (post t path data files params json respond).2 = respond 1) ∧
    (∀ (α : Type) (t : ℕ) (path : String)
      (data : Option (List (String × String))) (files : Option (List String))
      (params : Option (List (String × PVal)))
      (json : Option (List (String × String)))
      (respond : ℕ → Except RedditAPIException α) (e : RedditAPIException),
      respond 0 = .error e → handle_rate_limit t e = none →
      (post t path data files params json respond).1.length = 1 ∧
      (post t path data files params json respond).2 = .error e) ∧
    (∀ (α : Type) (path : String) (params : Option (List (String × PVal)))
      (respond : ℕ → Except RedditAPIException α),
      (get path params respond).1.length = 1 ∧
      (get path params respond).2 = respond 0) ∧
    (∀ (α : Type) (path : String) (data : Option (List (String × String)))
      (json : Option (List (String × String)))
      (respond : ℕ → Except RedditAPIException α),
      ((put path data json respond).1.length = 1 ∧
        (put path data json respond).2 = respond 0) ∧
      ((patch path data json respond).1.length = 1 ∧
        (patch path data json respond).2 = respond 0) ∧
      ((delete path data json respond).1.length = 1 ∧
        (delete path data json respond).2 = respond 0)) := by
  refine ⟨?_, ?_, ?_, ?_, ?_⟩
  · intro α t path data files params json respond v h0
    simp [post, h0]
  · intro α t path data files params json respond e s h0 hrl
    simp [post, h0, hrl]
  · intro α t path data files params json respond e h0 hrl
    simp [post, h0, hrl]
  · intro α path params respond
    exact ⟨rfl, rfl⟩
  · intro α path data json respond
    exact ⟨⟨rfl, rfl⟩, ⟨rfl, rfl⟩, rfl, rfl⟩

/-- Closed witness for C2: a "7 seconds" rate-limit failure under threshold
10 retries once and propagates the retry's success, while under threshold 2
the policy declines and the original exception propagates after one call. -/
theorem C2_post_single_retry_witness :
    ((post 10 "/api/comment" none none none none fun n =>
        if n = 0 then
          .error ⟨[⟨"RATELIMIT", "Try again in 7 seconds.", none⟩]⟩
        else .ok (42 : ℕ)).1.length = 2 ∧
      (post 10 "/api/comment" none none none none fun n =>
        if n = 0 then
          .error ⟨[⟨"RATELIMIT", "Try again in 7 seconds.", none⟩]⟩
        else .ok (42 : ℕ)).2 = .ok 42) ∧
    ((post 2 "/api/comment" none none none none fun n =>
        if n = 0 then
          .error ⟨[⟨"RATELIMIT", "Try again in 7 seconds.", none⟩]⟩
        else .ok (42 : ℕ)).1.length = 1 ∧
      (post 2 "/api/comment" none none none none fun n =>
        if n = 0 then
          .error ⟨[⟨"RATELIMIT", "Try again in 7 seconds.", none⟩]⟩
        else .ok (42 : ℕ)).2 =
        .error ⟨[⟨"RATELIMIT", "Try again in 7 seconds.", none⟩]⟩) :=
  ⟨⟨(C2_post_single_retry.2.1 ℕ 10 "/api/comment" none none none none
        (fun n => if n = 0 then
          .error ⟨[⟨"RATELIMIT", "Try again in 7 seconds.", none⟩]⟩
        else .ok 42)
        ⟨[⟨"RATELIMIT", "Try again in 7 seconds.", none⟩]⟩ (77 / 10) rfl
        (by rw [handle_rate_limit_seven_seconds]; norm_num)).1,
    ((C2_post_single_retry.2.1 ℕ 10 "/api/comment" none none none none
        (fun n => if n = 0 then
          .error ⟨[⟨"RATELIMIT", "Try again in 7 seconds.", none⟩]⟩
        else .ok 42)
        ⟨[⟨"RATELIMIT", "Try again in 7 seconds.", none⟩]⟩ (77 / 10) rfl
        (by rw [handle_rate_limit_seven_seconds]; norm_num)).2).trans rfl⟩,
   C2_post_single_retry.2.2.1 ℕ 2 "/api/comment" none none none none
      (fun n => if n = 0 then
        .error ⟨[⟨"RATELIMIT", "Try again in 7 seconds.", none⟩]⟩
      else .ok 42)
      ⟨[⟨"RATELIMIT", "Try again in 7 seconds.", none⟩]⟩ rfl
      (by rw [handle_rate_limit_seven_seconds]; norm_num)⟩

/-- C3: when a POST carrying a JSON body is retried after an authorized
rate-limit wait, the retry re-sends data, files, params and path but omits
the JSON body, so the retried request differs from the original. -/
theorem C3_retry_drops_json (α : Type) (t : ℕ) (path : String)
    (data : Option (List (String × String))) (files : Option (List String))
    (params : Option (List (String × PVal))) (j : List (String × String))
    (respond : ℕ → Except RedditAPIException α) (e : RedditAPIException)
    (s : ℚ) (h0 : respond 0 = .error e)
    (hrl : handle_rate_limit t e = some s) :
    (post t path data files params (some j) respond).1 =
      [⟨data, files, some j, "POST", params, path⟩,
        ⟨data, files, none, "POST", params, path⟩] ∧
    (⟨data, files, none, "POST", params, path⟩ : ObjRequest) ≠
      ⟨data, files, some j, "POST", params, path⟩ := by
  constructor
  · simp only [post, h0, hrl]
    simp
  · simp

/-- Closed witness for C3: a concrete rate-limited JSON POST issues exactly
the original request followed by a JSON-free retry. -/
theorem C3_retry_drops_json_witness :
    (post 10 "/api/widget" none none none (some [("kind", "text")]) fun n =>
        if n = 0 then
          .error ⟨[⟨"RATELIMIT", "Try again in 7 seconds.", none⟩]⟩
        else .ok (0 : ℕ)).1 =
      [⟨none, none, some [("kind", "text")], "POST", none, "/api/widget"⟩,
        ⟨none, none, none, "POST", none, "/api/widget"⟩] ∧
    (⟨none, none, none, "POST", none, "/api/widget"⟩ : ObjRequest) ≠
      ⟨none, none, some [("kind", "text")], "POST", none, "/api/widget"⟩ :=
  C3_retry_drops_json ℕ 10 "/api/widget" none none none [("kind", "text")]
    (fun n => if n = 0 then
      .error ⟨[⟨"RATELIMIT", "Try again in 7 seconds.", none⟩]⟩
    else .ok 0)
    ⟨[⟨"RATELIMIT", "Try again in 7 seconds.", none⟩]⟩ (77 / 10) rfl
    (by rw [handle_rate_limit_seven_seconds]; norm_num)

/-- Closed witness for C1: threshold 10 authorizes the "7 seconds" wait with
backoff 7.7, and threshold 299 declines the "5 minutes" wait. -/
theorem C1_rate_limit_backoff_witness :
    handle_rate_limit 10
        ⟨[⟨"RATELIMIT", "Try again in 7 seconds.", some "ratelimit"⟩]⟩ =
      some (77 / 10) ∧
    handle_rate_limit 299
        ⟨[⟨"RATELIMIT", "Take a break for 5 minutes.", some "ratelimit"⟩]⟩ =
      none :=
  ⟨C1_rate_limit_backoff.2.1 10 (by norm_num),
   C1_rate_limit_backoff.2.2 299 (by norm_num)⟩

/-- C8: `info` with an iterable of fullnames issues one request per
consecutive chunk, chunks are nonempty of size at most 100, every chunk but
the last has size exactly 100, the chunks concatenate back to the input,
the yields are the per-request results in order, and 250 fullnames produce
exactly 3 requests of sizes 100, 100, 50. -/
theorem C8_info_chunking :
    (∀ (α : Type) (resp : List String → List α)
      (urlResp : String → List α) (l : List String),
      info resp urlResp (some (.ofList l)) none =
        .ok (.fullnamesPlan (infoGen resp l).1 (infoGen resp l).2)) ∧
    (∀ (α : Type) (resp : List String → List α) (l : List String),
      ((infoGen resp l).1).flatten = l) ∧
    (∀ (α : Type) (resp : List String → List α) (l : List String),
      ∀ c ∈ (infoGen resp l).1, c ≠ [] ∧ c.length ≤ 100) ∧
    (∀ (α : Type) (resp : List String → List α) (l : List String),
      ∀ c ∈ ((infoGen resp l).1).dropLast, c.length = 100) ∧
    (∀ (α : Type) (resp : List String → List α) (l : List String),
      (infoGen resp l).2 = (((infoGen resp l).1).map resp).flatten) ∧
    (∀ (α : Type) (resp : List String → List α) (l : List String),
      l.length = 250 →
      ((infoGen resp l).1).map List.length = [100, 100, 50]) :=
  ⟨fun _ _ _ _ => rfl,
   fun _ resp l => infoGen_join resp l,
   fun _ resp l => infoGen_chunk_bounds resp l,
   fun _ resp l => infoGen_chunks_full resp l,
   fun _ resp l => infoGen_yields resp l,
   fun _ resp l h => infoGen_250 resp l h⟩

/-- Closed witness for C8: 250 concrete fullnames are batched into exactly
3 requests of sizes 100, 100 and 50. -/
theorem C8_info_chunking_witness :
    ((infoGen (fun _ => ([] : List ℕ))
        ((List.range 250).map toString)).1).map List.length =
      [100, 100, 50] :=
  C8_info_chunking.2.2.2.2.2 ℕ (fun _ => [])
    ((List.range 250).map toString) (by simp)

/-- C9: calling `info` with neither argument, with both arguments, or with
a plain string for `fullnames` raises a usage error before any request is
issued. -/
theorem C9_info_argument_validation :
    (∀ (α : Type) (resp : List String → List α)
      (urlResp : String → List α),
      info resp urlResp none none =
        .error "Either `fullnames` or `url` must be provided.") ∧
    (∀ (α : Type) (resp : List String → List α)
      (urlResp : String → List α) (f : FullnamesArg) (u : String),
      info resp urlResp (some f) (some u) =
        .error "Mutually exclusive parameters: `fullnames`, `url`") ∧
    (∀ (α : Type) (resp : List String → List α)
      (urlResp : String → List α) (s : String),
      info resp urlResp (some (.ofStr s)) none =
        .error "`fullnames` must be a non-str iterable.") :=
  ⟨fun _ _ _ => rfl, fun _ _ _ _ _ => rfl, fun _ _ _ _ => rfl⟩

/-- C10: a reply whose POST yields no created comment returns `none`
instead of failing, and a non-empty result yields its first element. -/
theorem C10_reply_optional_result :
    ∀ (γ : Type) (fullname body : String)
      (postResp : List (String × String) → List γ),
      ((reply fullname body postResp).2 =
        (postResp [("text", body), ("thing_id", fullname)]).head?) ∧
      (postResp [("text", body), ("thing_id", fullname)] = [] →
        (reply fullname body postResp).2 = none) ∧
      (∀ (c : γ) (cs : List γ),
        postResp [("text", body), ("thing_id", fullname)] = c :: cs →
        (reply fullname body postResp).2 = some c) := by
  intro γ fullname body postResp
  refine ⟨?_, ?_, ?_⟩
  · simp only [reply]
    cases h : postResp [("text", body), ("thing_id", fullname)] <;> simp [h]
  · intro h
    simp only [reply, h]
  · intro c cs h
    simp only [reply, h]

/-- Closed witness for C10: an empty POST result gives `none`, a singleton
result gives its element. -/
theorem C10_reply_optional_result_witness :
    (reply "t3_abc" "hello" (fun _ => ([] : List ℕ))).2 = none ∧
    (reply "t3_abc" "hello" (fun _ => [7])).2 = some 7 :=
  ⟨(C10_reply_optional_result ℕ "t3_abc" "hello" (fun _ => [])).2.1 rfl,
   (C10_reply_optional_result ℕ "t3_abc" "hello" (fun _ => [7])).2.2 7 []
     rfl⟩

end AsyncprawClaims
